import Mathlib

/-!
Verification of the interceptor catalog resolver
(`src/model/interceptors.ts` of httptoolkit-ui).

The module maps a static table of interceptor descriptors
(`INTERCEPT_OPTIONS`) against the statuses reported by a companion server
(`getInterceptOptions`), producing a decorated view with
`isSupported` / `isActive` / `isActivable` flags.

Embedding notes:
* JavaScript objects are embedded as ordered association lists
  (`Dict α := List (String × α)`), with the lodash operations `_.assign`,
  `_.keyBy` and `_.mapValues` modelled by `assign`, `keyBy` and `mapValues`
  below, reproducing sequential key insertion (later assignment wins, and an
  overwritten key keeps its original position).
* Field values are a small `Value` type: strings, booleans, string lists
  (tags / feature flags), opaque atoms (icon and custom-UI references, which
  this module only stores and never inspects), and requirement-check
  functions.
* `semver.satisfies(v, "^1.0.1")` (the electron requirement) is modelled by
  `semverSatisfiesCaret101`: node-semver returns `false` — it never throws —
  for an absent or unparsable version, and a version with a prerelease part
  never satisfies the plain range `^1.0.1`.
-/

/-- The option record passed to a descriptor's `checkRequirements` predicate.
In the source the call site passes `(serverInterceptors[id] || {}).version`,
so `interceptorVersion` is absent (`none`) when there is no matching server
status; a non-string `version` value is likewise passed as absent, which the
only version-consuming check (electron's semver test) treats identically to
an unparsable version. -/
structure CheckOptions where
  interceptorVersion : Option String
  featureFlags : List String
  serverVersion : Option String

/-- A JavaScript field value as used by this module: strings, booleans,
string arrays, opaque object references (icons, custom-UI components), and
requirement-check functions. -/
inductive Value where
  | vStr : String → Value
  | vBool : Bool → Value
  | vStrList : List String → Value
  | vAtom : String → Value
  | vFun : (CheckOptions → Bool) → Value

/-- A JavaScript object: an ordered association list from field names to
values. Objects built by this module never contain duplicate keys. -/
abbrev Dict (α : Type) : Type := List (String × α)

/-- An interceptor descriptor or a resolved entry: an object of `Value`s. -/
abbrev Obj : Type := Dict Value

/-- Modelled from the spec: `ServerInterceptor` is declared in
`src/services/server-api`, which is not part of the excerpt. The spec says a
server status carries `id`, `version`, `isActive` / `isActivable` flags "and
arbitrary additional fields opaque to this component", so it is embedded as
an arbitrary object. -/
abbrev ServerInterceptor : Type := Obj

/-- Object field read (`o[k]`): the value stored under the first occurrence
of the key, or `none` (JavaScript `undefined`) when the key is absent. -/
def dictGet {α : Type} : Dict α → String → Option α
  | [], _ => none
  | kv :: rest, k => if kv.1 = k then some kv.2 else dictGet rest k

/-- Object field write (`o[k] = v`): overwrites the first occurrence of the
key in place (JavaScript objects keep the original insertion position of an
overwritten key) or appends a fresh key at the end. -/
def dictSet {α : Type} : Dict α → String → α → Dict α
  | [], k, v => [(k, v)]
  | kv :: rest, k, v =>
    if kv.1 = k then (k, v) :: rest else kv :: dictSet rest k v

/-- lodash `_.assign(target, source)`: sequentially copies every
key/value pair of the source into the target, later assignments winning. -/
def assign {α : Type} (target : Dict α) (source : Dict α) : Dict α :=
  source.foldl (fun acc kv => dictSet acc kv.1 kv.2) target

/-- lodash `_.mapValues(obj, f)`: rebuilds the object with every value
replaced by `f value key`, keys and their order unchanged. -/
def mapValues {α β : Type} (l : Dict α) (f : α → String → β) : Dict β :=
  l.map (fun kv => (kv.1, f kv.2 kv.1))

/-- JavaScript truthiness of a field value: empty strings and `false` are
falsy; arrays, objects and functions are always truthy. -/
def Value.truthy : Value → Bool
  | .vStr s => s != ""
  | .vBool b => b
  | .vStrList _ => true
  | .vAtom _ => true
  | .vFun _ => true

/-- Truthiness of a possibly-absent field (`undefined` is falsy). -/
def truthyOpt : Option Value → Bool
  | none => false
  | some v => v.truthy

/-- `(serverInterceptors[id] || {}).version`, as a string: `none` when there
is no matching status or when its `version` field is absent or not a
string. -/
def versionOf : Option Obj → Option String
  | none => none
  | some o =>
    match dictGet o "version" with
    | some (Value.vStr s) => some s
    | _ => none

/-- The spec's `requirementsMet`: `true` when the descriptor has no
`checkRequirements` predicate, otherwise the predicate's verdict on the
given options. -/
def requirementsMet (option : Obj) (interceptorVersion : Option String)
    (featureFlags : List String) (serverVersion : Option String) : Bool :=
  match dictGet option "checkRequirements" with
  | some (Value.vFun f) =>
    f ⟨interceptorVersion, featureFlags, serverVersion⟩
  | _ => true

/-- Split a character list at every occurrence of the separator (the
character-level counterpart of `String.splitOn` for the one-character
separators used by semver syntax). -/
def splitChar (sep : Char) : List Char → List (List Char)
  | [] => [[]]
  | c :: rest =>
    if c == sep then [] :: splitChar sep rest
    else
      match splitChar sep rest with
      | [] => [[c]]
      | g :: gs => (c :: g) :: gs

/-- A numeric semver identifier: digits only, no leading zero; its value. -/
def semverNumId (cs : List Char) : Option Nat :=
  if cs.length > 0 && cs.all Char.isDigit &&
      (cs == ['0'] || cs.headD ' ' != '0')
  then some (cs.foldl (fun n c => n * 10 + (c.toNat - 48)) 0)
  else none

/-- A valid prerelease identifier: nonempty, alphanumeric or hyphen
characters, and no leading zero when fully numeric. -/
def semverPreId (cs : List Char) : Bool :=
  cs.length > 0 && cs.all (fun c => c.isAlphanum || c == '-') &&
    (!(cs.all Char.isDigit) || cs == ['0'] || cs.headD ' ' != '0')

/-- A valid build-metadata identifier: nonempty, alphanumeric or hyphen. -/
def semverBuildId (cs : List Char) : Bool :=
  cs.length > 0 && cs.all (fun c => c.isAlphanum || c == '-')

/-- Parse `major.minor.patch` with an optional `-prerelease` tail (the
prerelease part starts at the first hyphen and may itself contain
hyphens). -/
def parseSemverCore (core : List Char) : Option (Nat × Nat × Nat × List (List Char)) :=
  match splitChar '-' core with
  | [] => none
  | c :: rest =>
    match splitChar '.' c with
    | [ma, mi, pa] =>
      match semverNumId ma, semverNumId mi, semverNumId pa with
      | some major, some minor, some patch =>
        if rest.isEmpty then some (major, minor, patch, [])
        else
          let preIds := splitChar '.' (List.intercalate ['-'] rest)
          if preIds.all semverPreId then some (major, minor, patch, preIds)
          else none
      | _, _, _ => none
    | _ => none

/-- Parse a strict semver string (optional leading `v`, `major.minor.patch`,
optional `-prerelease`, optional `+build`) into the numeric triple and the
prerelease identifiers; `none` for anything node-semver rejects. -/
def parseSemver (s0 : String) : Option (Nat × Nat × Nat × List (List Char)) :=
  let cs :=
    match s0.data with
    | 'v' :: rest => rest
    | cs => cs
  match splitChar '+' cs with
  | [core] => parseSemverCore core
  | [core, build] =>
    if (splitChar '.' build).all semverBuildId then parseSemverCore core
    else none
  | _ => none

/-- `semver.satisfies(v, "^1.0.1")` from node-semver, specialised to the one
range this module uses. The range denotes `>=1.0.1 <2.0.0-0`; an absent or
unparsable version yields `false` (node-semver never throws here), and a
version carrying a prerelease part never satisfies this plain range (the
only comparator with a prerelease is `<2.0.0-0`, which no `2.0.0-x`
prerelease is below). -/
def semverSatisfiesCaret101 : Option String → Bool
  | none => false
  | some s =>
    match parseSemver s with
    | none => false
    | some (major, minor, patch, pre) =>
      pre.isEmpty && major == 1 && (minor > 0 || patch ≥ 1)

def BROWSER_TAGS : List String := ["browsers", "web page", "web app", "javascript"]

def MOBILE_TAGS : List String := ["mobile", "phone", "app"]

def ANDROID_TAGS : List String :=
  ["samsung", "galaxy", "nokia", "lg", "android", "google", "motorola"]

def IOS_TAGS : List String := ["apple", "ios", "iphone", "ipad"]

def DOCKER_TAGS : List String := ["bridge", "services", "images"]

def MANUAL_INTERCEPT_ID : String := "manual-setup"

/-- Modelled from the spec: the semver range `DETAILED_CONFIG_RANGE` is
imported from `src/services/service-versions`, which is not part of the
excerpt; the spec says only that the android-device descriptor "requires
server version in a configured range". Satisfaction of that unknown range is
therefore a parameter of the embedding: a function from the version string
tested (the source tests `serverVersion || ''`) to a boolean verdict. -/
abbrev DetailedConfigSat : Type := String → Bool

/-- A sample instantiation of the unknown `DETAILED_CONFIG_RANGE`
satisfaction test: every version string is in range. -/
def rangeSatTrue : DetailedConfigSat := fun _ => true

/-- A sample instantiation of the unknown `DETAILED_CONFIG_RANGE`
satisfaction test: no version string is in range. -/
def rangeSatFalse : DetailedConfigSat := fun _ => false

def dockerAllOption : Obj :=
  [("name", Value.vStr "All Docker Containers"),
   ("description", Value.vStr "Intercept all local Docker traffic"),
   ("iconProps", Value.vAtom "SourceIcons.Docker"),
   ("tags", Value.vStrList DOCKER_TAGS)]

def dockerSpecificOption : Obj :=
  [("name", Value.vStr "Specific Docker Containers"),
   ("description", Value.vStr "Intercept all traffic from specific Docker containers"),
   ("iconProps", Value.vAtom "SourceIcons.Docker"),
   ("tags", Value.vStrList DOCKER_TAGS)]

def freshChromeOption : Obj :=
  [("name", Value.vStr "Fresh Chrome"),
   ("description", Value.vStr "Open a preconfigured fresh Chrome window"),
   ("iconProps", Value.vAtom "SourceIcons.Chrome"),
   ("tags", Value.vStrList BROWSER_TAGS)]

def freshFirefoxOption : Obj :=
  [("name", Value.vStr "Fresh Firefox"),
   ("description", Value.vStr "Open a preconfigured fresh Firefox window"),
   ("iconProps", Value.vAtom "SourceIcons.Firefox"),
   ("tags", Value.vStrList BROWSER_TAGS)]

def freshSafariOption : Obj :=
  [("name", Value.vStr "Fresh Safari"),
   ("description", Value.vStr "Open a preconfigured fresh Safari window"),
   ("iconProps", Value.vAtom "SourceIcons.Safari"),
   ("tags", Value.vStrList BROWSER_TAGS)]

def freshEdgeOption : Obj :=
  [("name", Value.vStr "Fresh Edge"),
   ("description", Value.vStr "Open a preconfigured fresh Edge window"),
   ("iconProps", Value.vAtom "SourceIcons.Edge"),
   ("tags", Value.vStrList BROWSER_TAGS)]

def TERMINAL_TAGS : List String :=
  ["terminal", "command line", "cli", "bash", "cmd", "shell", "php", "ruby", "node", "js"]

def freshTerminalOption : Obj :=
  [("name", Value.vStr "Fresh Terminal"),
   ("description", Value.vStr "Open a new terminal preconfigured to intercept all launched processes"),
   ("iconProps", Value.vAtom "SourceIcons.Terminal"),
   ("tags", Value.vStrList TERMINAL_TAGS)]

def existingTerminalOption : Obj :=
  [("name", Value.vStr "Existing Terminal"),
   ("description", Value.vStr "Intercept all launched processes from one of your existing terminal windows"),
   ("iconProps", Value.vAtom "defaults-color-dd44dd-SourceIcons.Terminal"),
   ("uiConfig", Value.vAtom "ExistingTerminalCustomUi"),
   ("tags", Value.vStrList TERMINAL_TAGS)]

def electronOption : Obj :=
  [("name", Value.vStr "Electron Application"),
   ("description", Value.vStr "Launch an Electron application with all its traffic intercepted"),
   ("iconProps", Value.vAtom "SourceIcons.Electron"),
   ("uiConfig", Value.vAtom "ElectronCustomUi"),
   ("checkRequirements", Value.vFun (fun opts =>
      semverSatisfiesCaret101 opts.interceptorVersion)),
   ("tags", Value.vStrList ["electron", "desktop", "postman"])]

def androidDeviceOption (rangeSat : DetailedConfigSat) : Obj :=
  [("name", Value.vStr "An Android device"),
   ("description", Value.vStr "Intercept all HTTP traffic from an Android device on your network"),
   ("iconProps", Value.vAtom "SourceIcons.Android"),
   ("checkRequirements", Value.vFun (fun opts =>
      rangeSat (opts.serverVersion.getD "") &&
        opts.featureFlags.contains "android")),
   ("clientOnly", Value.vBool true),
   ("uiConfig", Value.vAtom "AndroidCustomUi"),
   ("tags", Value.vStrList (MOBILE_TAGS ++ ANDROID_TAGS))]

def iosDeviceOption : Obj :=
  [("name", Value.vStr "An iOS device"),
   ("description", Value.vStr "Intercept all HTTP traffic from an iOS device on your network"),
   ("iconProps", Value.vAtom "SourceIcons.iOS"),
   ("tags", Value.vStrList (MOBILE_TAGS ++ IOS_TAGS))]

def networkDeviceOption : Obj :=
  [("name", Value.vStr "A device on your network"),
   ("description", Value.vStr "Intercept all HTTP traffic from another device on your network"),
   ("iconProps", Value.vAtom "SourceIcons.Network"),
   ("tags", Value.vStrList (MOBILE_TAGS ++ IOS_TAGS ++ ANDROID_TAGS ++ ["lan", "arp", "wifi"]))]

def virtualboxMachineOption : Obj :=
  [("name", Value.vStr "A virtualbox VM"),
   ("description", Value.vStr "Intercept all traffic from a Virtualbox VM"),
   ("iconProps", Value.vAtom "SourceIcons.Desktop"),
   ("tags", Value.vStrList ["virtual machine", "vagrant"])]

def systemProxyOption : Obj :=
  [("name", Value.vStr "Everything"),
   ("description", Value.vStr "Intercept all HTTP traffic on this machine"),
   ("iconProps", Value.vAtom "SourceIcons.Desktop"),
   ("tags", Value.vStrList ["local", "machine", "system", "me"])]

def manualSetupOption : Obj :=
  [("name", Value.vStr "Anything"),
   ("description", Value.vStr "Manually configure any source using the proxy settings and CA certificate"),
   ("iconProps", Value.vAtom "SourceIcons.Unknown"),
   ("clientOnly", Value.vBool true),
   ("uiConfig", Value.vAtom "ManualInterceptCustomUi"),
   ("tags", Value.vStrList [])]

/-- The static descriptor table, in source order, parameterised by the
unknown `DETAILED_CONFIG_RANGE` satisfaction test used by the android-device
requirement check. -/
def INTERCEPT_OPTIONS (rangeSat : DetailedConfigSat) : Dict Obj :=
  [("docker-all", dockerAllOption),
   ("docker-specific", dockerSpecificOption),
   ("fresh-chrome", freshChromeOption),
   ("fresh-firefox", freshFirefoxOption),
   ("fresh-safari", freshSafariOption),
   ("fresh-edge", freshEdgeOption),
   ("fresh-terminal", freshTerminalOption),
   ("existing-terminal", existingTerminalOption),
   ("electron", electronOption),
   ("android-device", androidDeviceOption rangeSat),
   ("ios-device", iosDeviceOption),
   ("network-device", networkDeviceOption),
   ("virtualbox-machine", virtualboxMachineOption),
   ("system-proxy", systemProxyOption),
   (MANUAL_INTERCEPT_ID, manualSetupOption)]

/-- The key lodash `_.keyBy(array, 'id')` files a status under: its `id`
field rendered as a JavaScript property key (`String(value)`); server
statuses always carry a string id, the remaining cases are the JavaScript
stringification of the other value shapes. -/
def keyOf (o : Obj) : String :=
  match dictGet o "id" with
  | some (Value.vStr s) => s
  | some (Value.vBool b) => toString b
  | some (Value.vStrList l) => ",".intercalate l
  | some (Value.vAtom a) => a
  | some (Value.vFun _) => "function"
  | none => "undefined"

/-- lodash `_.keyBy(serverInterceptorArray, 'id')`: sequentially inserts
each status under its id key, so a later status with the same id overwrites
an earlier one. -/
def keyBy (xs : List ServerInterceptor) : Dict Obj :=
  assign [] (xs.map (fun o => (keyOf o, o)))

/-- The body of the `_.mapValues` callback of `getInterceptOptions`,
with the (pure) lookup `serverInterceptors[id]` factored out as the
`serverInterceptor` argument. The three branches are, in order: unsupported
(server interceptor needed but missing, or requirements unmet), client-only
(supported and activable without server help), and server-backed (descriptor
overlaid with the full server status, then the forced `id` and
`isSupported`). -/
def resolveOption (serverInterceptor : Option Obj)
    (serverVersion : Option String) (featureFlags : List String)
    (option : Obj) (id : String) : Obj :=
  if (!truthyOpt (dictGet option "clientOnly") && serverInterceptor.isNone)
      || !requirementsMet option (versionOf serverInterceptor)
            featureFlags serverVersion then
    assign (assign [] option)
      [("id", Value.vStr id), ("isSupported", Value.vBool false),
       ("isActive", Value.vBool false), ("isActivable", Value.vBool false)]
  else if truthyOpt (dictGet option "clientOnly") then
    assign (assign [] option)
      [("id", Value.vStr id), ("isSupported", Value.vBool true),
       ("isActive", Value.vBool false), ("isActivable", Value.vBool true)]
  else
    assign (assign (assign [] option) (serverInterceptor.getD []))
      [("id", Value.vStr id), ("isSupported", Value.vBool true)]

/-- `getInterceptOptions(serverInterceptorArray, serverVersion?,
featureFlags = [])`: index the reported statuses by id, then resolve every
entry of the static table. The extra `rangeSat` argument carries the
satisfaction test of the `DETAILED_CONFIG_RANGE` semver range, whose
definition is outside the excerpt. -/
def getInterceptOptions (rangeSat : DetailedConfigSat)
    (serverInterceptorArray : List ServerInterceptor)
    (serverVersion : Option String) (featureFlags : List String) : Dict Obj :=
  let serverInterceptors := keyBy serverInterceptorArray
  mapValues (INTERCEPT_OPTIONS rangeSat) (fun option id =>
    resolveOption (dictGet serverInterceptors id)
      serverVersion featureFlags option id)

/-- The field `k` of the entry `i` of a resolved mapping, when both exist. -/
def entryField (out : Dict Obj) (i k : String) : Option Value :=
  (dictGet out i).bind (fun e => dictGet e k)

/-- A server status for the manual-setup id, used to show that a client-only
descriptor with no requirement check resolves the same way whatever the
server reports. -/
def manualStatus : ServerInterceptor :=
  [("id", Value.vStr "manual-setup"), ("version", Value.vStr "2.0.0"),
   ("isActive", Value.vBool true), ("isActivable", Value.vBool true)]

/-- The concrete docker-all server status of claim C4. -/
def dockerStatus : ServerInterceptor :=
  [("id", Value.vStr "docker-all"), ("version", Value.vStr "x"),
   ("isActive", Value.vBool true), ("isActivable", Value.vBool true)]

/-- A server status for the electron id reporting the given version, not
currently active but activable. -/
def electronStatus (version : String) : ServerInterceptor :=
  [("id", Value.vStr "electron"), ("version", Value.vStr version),
   ("isActive", Value.vBool false), ("isActivable", Value.vBool true)]

/-- A server status for the android-device id, claiming to be active and
activable. -/
def androidStatus : ServerInterceptor :=
  [("id", Value.vStr "android-device"), ("version", Value.vStr "1.0.0"),
   ("isActive", Value.vBool true), ("isActivable", Value.vBool true)]

/-- A second docker-all server status, disagreeing with `dockerStatus` on
every non-id field, to exhibit the duplicate-id behaviour. -/
def dockerStatus2 : ServerInterceptor :=
  [("id", Value.vStr "docker-all"), ("version", Value.vStr "y"),
   ("isActive", Value.vBool false), ("isActivable", Value.vBool false)]

/-! ## Sanity checks of the semver model -/

theorem semverSanity :
    semverSatisfiesCaret101 (some "1.0.0") = false ∧
    semverSatisfiesCaret101 (some "1.0.1") = true ∧
    semverSatisfiesCaret101 (some "1.0.2") = true ∧
    semverSatisfiesCaret101 (some "1.9.0") = true ∧
    semverSatisfiesCaret101 (some "2.0.0") = false ∧
    semverSatisfiesCaret101 (some "0.9.9") = false ∧
    semverSatisfiesCaret101 (some "1.1.0-alpha") = false ∧
    semverSatisfiesCaret101 (some "v1.2.3") = true ∧
    semverSatisfiesCaret101 (some "1.2.3+build.7") = true ∧
    semverSatisfiesCaret101 (some "01.0.2") = false ∧
    semverSatisfiesCaret101 (some "1.0") = false ∧
    semverSatisfiesCaret101 (some "nonsense") = false ∧
    semverSatisfiesCaret101 (some "") = false ∧
    semverSatisfiesCaret101 none = false :=
  ⟨rfl, rfl, rfl, rfl, rfl, rfl, rfl, rfl, rfl, rfl, rfl, rfl, rfl, rfl⟩

/-! ## Basic lemmas about the object operations -/

theorem dictGet_dictSet {α : Type} (l : Dict α) (k k' : String) (v : α) :
    dictGet (dictSet l k v) k' = if k' = k then some v else dictGet l k' := by
  induction l with
  | nil =>
    by_cases h : k' = k
    · simp [dictSet, dictGet, h]
    · simp [dictSet, dictGet, h, Ne.symm h]
  | cons kv rest ih =>
    by_cases h1 : kv.1 = k
    · by_cases h2 : k' = k
      · simp [dictSet, dictGet, h1, h2]
      · simp [dictSet, dictGet, h1, h2, Ne.symm h2]
    · by_cases h3 : kv.1 = k'
      · have h4 : ¬ k' = k := fun hh => h1 (by rw [h3, hh])
        simp [dictSet, dictGet, h1, h3, h4]
      · simp [dictSet, dictGet, h1, h3, ih]

theorem dictGet_dictSet_self {α : Type} (l : Dict α) (k : String) (v : α) :
    dictGet (dictSet l k v) k = some v := by
  simp [dictGet_dictSet]

theorem dictGet_dictSet_ne {α : Type} (l : Dict α) {k k' : String}
    (h : k' ≠ k) (v : α) :
    dictGet (dictSet l k v) k' = dictGet l k' := by
  simp [dictGet_dictSet, h]

theorem assign_nil {α : Type} (t : Dict α) : assign t [] = t := rfl

theorem assign_cons {α : Type} (t : Dict α) (kv : String × α)
    (rest : Dict α) :
    assign t (kv :: rest) = assign (dictSet t kv.1 kv.2) rest := rfl

theorem dictGet_mapValues {α β : Type} (l : Dict α) (f : α → String → β)
    (k : String) :
    dictGet (mapValues l f) k = (dictGet l k).map (fun v => f v k) := by
  induction l with
  | nil => rfl
  | cons kv rest ih =>
    by_cases h : kv.1 = k
    · simp [mapValues, dictGet, h]
    · simpa [mapValues, dictGet, h] using ih

theorem mapValues_keys {α β : Type} (l : Dict α) (f : α → String → β) :
    (mapValues l f).map Prod.fst = l.map Prod.fst := by
  induction l with
  | nil => rfl
  | cons kv rest ih => simp [mapValues, ih]

/-- Key lookup in a sequentially keyed insertion: the value inserted last
under the key wins, and an absent key falls through to the target. -/
theorem dictGet_assign_keyed (t : Dict Obj) (xs : List ServerInterceptor)
    (i : String) :
    dictGet (assign t (xs.map (fun o => (keyOf o, o)))) i =
      Option.or (xs.reverse.find? (fun o => keyOf o == i)) (dictGet t i) := by
  induction xs generalizing t with
  | nil => simp [assign]
  | cons o rest ih =>
    rw [List.map_cons, assign_cons, ih]
    rw [List.reverse_cons, List.find?_append]
    cases hf : rest.reverse.find? (fun o => keyOf o == i) with
    | some v => simp [Option.or]
    | none =>
      by_cases h : keyOf o = i
      · simp [Option.or, List.find?, h, dictGet_dictSet]
      · have hb : (keyOf o == i) = false := by simp [h]
        simp [Option.or, List.find?, hb, dictGet_dictSet,
          show ¬ i = keyOf o from fun hh => h hh.symm]

/-- lodash `_.keyBy` keeps, for every id, the last status in the input
sequence that carries that id. -/
theorem dictGet_keyBy (sis : List ServerInterceptor) (i : String) :
    dictGet (keyBy sis) i = sis.reverse.find? (fun o => keyOf o == i) := by
  rw [keyBy, dictGet_assign_keyed]
  cases sis.reverse.find? (fun o => keyOf o == i) <;> simp [Option.or, dictGet]

/-- Reading any entry of the resolver's output: the static table's
descriptor for that id, resolved against the indexed server statuses. -/
theorem getInterceptOptions_get (rangeSat : DetailedConfigSat)
    (sis : List ServerInterceptor) (sv : Option String) (ff : List String)
    (i : String) :
    dictGet (getInterceptOptions rangeSat sis sv ff) i =
      (dictGet (INTERCEPT_OPTIONS rangeSat) i).map
        (fun option => resolveOption (dictGet (keyBy sis) i) sv ff option i) := by
  rw [getInterceptOptions, dictGet_mapValues]

/-! ## Branch lemmas for the resolver -/

/-- Unsupported branch, reached because a server interceptor is needed but
absent. -/
theorem resolveOption_unsupported_noMatch (sv : Option String)
    (ff : List String) (option : Obj) (i : String)
    (h1 : truthyOpt (dictGet option "clientOnly") = false) :
    resolveOption none sv ff option i =
      assign (assign [] option)
        [("id", Value.vStr i), ("isSupported", Value.vBool false),
         ("isActive", Value.vBool false), ("isActivable", Value.vBool false)] := by
  simp [resolveOption, h1]

/-- Unsupported branch, reached because the requirement check failed. -/
theorem resolveOption_unsupported_reqFail (m : Option Obj)
    (sv : Option String) (ff : List String) (option : Obj) (i : String)
    (h : requirementsMet option (versionOf m) ff sv = false) :
    resolveOption m sv ff option i =
      assign (assign [] option)
        [("id", Value.vStr i), ("isSupported", Value.vBool false),
         ("isActive", Value.vBool false), ("isActivable", Value.vBool false)] := by
  simp [resolveOption, h]

/-- Client-only branch: requirements met (or absent) and the descriptor is
flagged client-only. -/
theorem resolveOption_clientOnly (m : Option Obj) (sv : Option String)
    (ff : List String) (option : Obj) (i : String)
    (h1 : truthyOpt (dictGet option "clientOnly") = true)
    (h2 : requirementsMet option (versionOf m) ff sv = true) :
    resolveOption m sv ff option i =
      assign (assign [] option)
        [("id", Value.vStr i), ("isSupported", Value.vBool true),
         ("isActive", Value.vBool false), ("isActivable", Value.vBool true)] := by
  simp [resolveOption, h1, h2]

/-- Server-backed branch: a matching status exists, requirements are met
(or absent), and the descriptor is not client-only. -/
theorem resolveOption_serverBacked (s : Obj) (sv : Option String)
    (ff : List String) (option : Obj) (i : String)
    (h1 : truthyOpt (dictGet option "clientOnly") = false)
    (h2 : requirementsMet option (versionOf (some s)) ff sv = true) :
    resolveOption (some s) sv ff option i =
      assign (assign (assign [] option) s)
        [("id", Value.vStr i), ("isSupported", Value.vBool true)] := by
  simp [resolveOption, h1, h2]

/-- Overwriting the same key twice keeps only the last value. -/
theorem dictSet_dictSet {α : Type} (l : Dict α) (k : String) (v₁ v₂ : α) :
    dictSet (dictSet l k v₁) k v₂ = dictSet l k v₂ := by
  induction l with
  | nil => simp [dictSet]
  | cons kv rest ih =>
    by_cases h : kv.1 = k
    · simp [dictSet, h]
    · simp [dictSet, h, ih]

/-! ## The claims -/

/-- Claim C1: for every server interceptor list, optional server version and
feature-flag list, the key sequence — hence the key set — of the mapping
returned by getInterceptOptions is exactly that of the static
INTERCEPT_OPTIONS table: server-reported ids not present in the table never
appear in the output, and every table id appears. -/
theorem getInterceptOptions_keys (rangeSat : DetailedConfigSat)
    (sis : List ServerInterceptor) (sv : Option String) (ff : List String) :
    (getInterceptOptions rangeSat sis sv ff).map Prod.fst =
      (INTERCEPT_OPTIONS rangeSat).map Prod.fst ∧
    (getInterceptOptions rangeSat sis sv ff).map Prod.fst =
      ["docker-all", "docker-specific", "fresh-chrome", "fresh-firefox",
       "fresh-safari", "fresh-edge", "fresh-terminal", "existing-terminal",
       "electron", "android-device", "ios-device", "network-device",
       "virtualbox-machine", "system-proxy", "manual-setup"] ∧
    (∀ i, (dictGet (getInterceptOptions rangeSat sis sv ff) i).isSome =
       (dictGet (INTERCEPT_OPTIONS rangeSat) i).isSome) := by
  refine ⟨?_, ?_, ?_⟩
  · simp only [getInterceptOptions]
    exact mapValues_keys _ _
  · simp only [getInterceptOptions]
    rw [mapValues_keys]
    rfl
  · intro i
    rw [getInterceptOptions_get]
    cases dictGet (INTERCEPT_OPTIONS rangeSat) i <;> rfl

/-- Claim C2: whenever a descriptor is not client-only and has no matching
server status, or its requirement check rejects the offered
interceptor-version / feature-flag / server-version triple, the output entry
is exactly the descriptor fields overlaid with id, isSupported false,
isActive false and isActivable false. -/
theorem getInterceptOptions_unsupported (rangeSat : DetailedConfigSat)
    (sis : List ServerInterceptor) (sv : Option String) (ff : List String)
    (i : String) (d : Obj)
    (hd : dictGet (INTERCEPT_OPTIONS rangeSat) i = some d)
    (h : (truthyOpt (dictGet d "clientOnly") = false ∧
            dictGet (keyBy sis) i = none) ∨
         requirementsMet d (versionOf (dictGet (keyBy sis) i)) ff sv = false) :
    dictGet (getInterceptOptions rangeSat sis sv ff) i =
      some (assign (assign [] d)
        [("id", Value.vStr i), ("isSupported", Value.vBool false),
         ("isActive", Value.vBool false), ("isActivable", Value.vBool false)]) := by
  rw [getInterceptOptions_get, hd, Option.map_some']
  rcases h with ⟨h1, h2⟩ | h
  · rw [h2, resolveOption_unsupported_noMatch _ _ _ _ h1]
  · rw [resolveOption_unsupported_reqFail _ _ _ _ _ h]

/-- Witness for claim C2: the docker-all descriptor (not client-only, no
requirement check) resolved against an empty server list. -/
theorem getInterceptOptions_unsupported_witness :
    dictGet (INTERCEPT_OPTIONS rangeSatFalse) "docker-all" =
      some dockerAllOption ∧
    truthyOpt (dictGet dockerAllOption "clientOnly") = false ∧
    dictGet (keyBy []) "docker-all" = none ∧
    dictGet (getInterceptOptions rangeSatFalse [] none []) "docker-all" =
      some (assign (assign [] dockerAllOption)
        [("id", Value.vStr "docker-all"), ("isSupported", Value.vBool false),
         ("isActive", Value.vBool false), ("isActivable", Value.vBool false)]) :=
  ⟨rfl, rfl, rfl,
    getInterceptOptions_unsupported rangeSatFalse [] none [] "docker-all"
      dockerAllOption rfl (Or.inl ⟨rfl, rfl⟩)⟩

/-- Claim C3: a client-only descriptor whose requirement check (if any)
passes resolves, for every server input, to the descriptor fields overlaid
with id, isSupported true, isActive false and isActivable true. -/
theorem getInterceptOptions_clientOnly (rangeSat : DetailedConfigSat)
    (sis : List ServerInterceptor) (sv : Option String) (ff : List String)
    (i : String) (d : Obj)
    (hd : dictGet (INTERCEPT_OPTIONS rangeSat) i = some d)
    (hco : truthyOpt (dictGet d "clientOnly") = true)
    (hreq : requirementsMet d (versionOf (dictGet (keyBy sis) i)) ff sv = true) :
    dictGet (getInterceptOptions rangeSat sis sv ff) i =
      some (assign (assign [] d)
        [("id", Value.vStr i), ("isSupported", Value.vBool true),
         ("isActive", Value.vBool false), ("isActivable", Value.vBool true)]) := by
  rw [getInterceptOptions_get, hd, Option.map_some',
    resolveOption_clientOnly _ _ _ _ _ hco hreq]

/-- Witness for claim C3: the manual-setup descriptor (client-only, no
requirement check) resolves to the client-only entry even when the server
reports a manual-setup status claiming to be active. -/
theorem getInterceptOptions_clientOnly_witness :
    dictGet (INTERCEPT_OPTIONS rangeSatFalse) "manual-setup" =
      some manualSetupOption ∧
    truthyOpt (dictGet manualSetupOption "clientOnly") = true ∧
    requirementsMet manualSetupOption
      (versionOf (dictGet (keyBy [manualStatus]) "manual-setup")) [] none = true ∧
    dictGet (getInterceptOptions rangeSatFalse [manualStatus] none [])
        "manual-setup" =
      some (assign (assign [] manualSetupOption)
        [("id", Value.vStr "manual-setup"), ("isSupported", Value.vBool true),
         ("isActive", Value.vBool false), ("isActivable", Value.vBool true)]) :=
  ⟨rfl, rfl, rfl,
    getInterceptOptions_clientOnly rangeSatFalse [manualStatus] none []
      "manual-setup" manualSetupOption rfl rfl rfl⟩

/-- Claim C4: a non-client-only descriptor with a matching server status and
a passing (or absent) requirement check resolves to the ordered later-wins
overlay: descriptor fields, then every field of the server status, then the
forced id and isSupported true. -/
theorem getInterceptOptions_serverBacked (rangeSat : DetailedConfigSat)
    (sis : List ServerInterceptor) (sv : Option String) (ff : List String)
    (i : String) (d : Obj) (s : Obj)
    (hd : dictGet (INTERCEPT_OPTIONS rangeSat) i = some d)
    (hco : truthyOpt (dictGet d "clientOnly") = false)
    (hm : dictGet (keyBy sis) i = some s)
    (hreq : requirementsMet d (versionOf (some s)) ff sv = true) :
    dictGet (getInterceptOptions rangeSat sis sv ff) i =
      some (assign (assign (assign [] d) s)
        [("id", Value.vStr i), ("isSupported", Value.vBool true)]) := by
  rw [getInterceptOptions_get, hd, Option.map_some', hm,
    resolveOption_serverBacked _ _ _ _ _ hco hreq]

/-- Witness for claim C4: the docker-all descriptor resolved against the
status of the claim; the resulting entry carries isSupported, isActive and
isActivable all true. -/
theorem getInterceptOptions_serverBacked_witness :
    dictGet (INTERCEPT_OPTIONS rangeSatFalse) "docker-all" =
      some dockerAllOption ∧
    truthyOpt (dictGet dockerAllOption "clientOnly") = false ∧
    dictGet (keyBy [dockerStatus]) "docker-all" = some dockerStatus ∧
    requirementsMet dockerAllOption (versionOf (some dockerStatus)) [] none = true ∧
    dictGet (getInterceptOptions rangeSatFalse [dockerStatus] none [])
        "docker-all" =
      some (assign (assign (assign [] dockerAllOption) dockerStatus)
        [("id", Value.vStr "docker-all"), ("isSupported", Value.vBool true)]) ∧
    entryField (getInterceptOptions rangeSatFalse [dockerStatus] none [])
      "docker-all" "isSupported" = some (Value.vBool true) ∧
    entryField (getInterceptOptions rangeSatFalse [dockerStatus] none [])
      "docker-all" "isActive" = some (Value.vBool true) ∧
    entryField (getInterceptOptions rangeSatFalse [dockerStatus] none [])
      "docker-all" "isActivable" = some (Value.vBool true) :=
  ⟨rfl, rfl, rfl, rfl,
    getInterceptOptions_serverBacked rangeSatFalse [dockerStatus] none []
      "docker-all" dockerAllOption dockerStatus rfl rfl rfl rfl,
    rfl, rfl, rfl⟩

/-- Claim C5: the electron descriptor's requirement is that the reported
interceptor version satisfies the semver range caret-1.0.1: with version
1.0.0 the entry is unsupported (isSupported false), with version 1.0.2 it is
supported and the server status's isActive / isActivable are carried
through. -/
theorem electron_version_gate (rangeSat : DetailedConfigSat) :
    semverSatisfiesCaret101 (some "1.0.0") = false ∧
    semverSatisfiesCaret101 (some "1.0.2") = true ∧
    entryField (getInterceptOptions rangeSat [electronStatus "1.0.0"] none [])
      "electron" "isSupported" = some (Value.vBool false) ∧
    entryField (getInterceptOptions rangeSat [electronStatus "1.0.0"] none [])
      "electron" "isActive" = some (Value.vBool false) ∧
    entryField (getInterceptOptions rangeSat [electronStatus "1.0.0"] none [])
      "electron" "isActivable" = some (Value.vBool false) ∧
    entryField (getInterceptOptions rangeSat [electronStatus "1.0.2"] none [])
      "electron" "isSupported" = some (Value.vBool true) ∧
    entryField (getInterceptOptions rangeSat [electronStatus "1.0.2"] none [])
      "electron" "isActive" = some (Value.vBool false) ∧
    entryField (getInterceptOptions rangeSat [electronStatus "1.0.2"] none [])
      "electron" "isActivable" = some (Value.vBool true) :=
  ⟨rfl, rfl, rfl, rfl, rfl, rfl, rfl, rfl⟩

/-- Claim C6: without the android feature flag the android-device entry is
unsupported — isSupported, isActive and isActivable all false — whatever the
server reports and whatever the server version is. -/
theorem android_requires_flag (rangeSat : DetailedConfigSat)
    (sis : List ServerInterceptor) (sv : Option String) (ff : List String)
    (h : ff.contains "android" = false) :
    entryField (getInterceptOptions rangeSat sis sv ff) "android-device"
      "isSupported" = some (Value.vBool false) ∧
    entryField (getInterceptOptions rangeSat sis sv ff) "android-device"
      "isActive" = some (Value.vBool false) ∧
    entryField (getInterceptOptions rangeSat sis sv ff) "android-device"
      "isActivable" = some (Value.vBool false) := by
  have hd : dictGet (INTERCEPT_OPTIONS rangeSat) "android-device" =
      some (androidDeviceOption rangeSat) := rfl
  have hreq : requirementsMet (androidDeviceOption rangeSat)
      (versionOf (dictGet (keyBy sis) "android-device")) ff sv = false := by
    show (rangeSat (sv.getD "") && ff.contains "android") = false
    rw [h, Bool.and_false]
  have hout : dictGet (getInterceptOptions rangeSat sis sv ff)
      "android-device" =
      some (assign (assign [] (androidDeviceOption rangeSat))
        [("id", Value.vStr "android-device"),
         ("isSupported", Value.vBool false),
         ("isActive", Value.vBool false),
         ("isActivable", Value.vBool false)]) := by
    rw [getInterceptOptions_get, hd, Option.map_some',
      resolveOption_unsupported_reqFail _ _ _ _ _ hreq]
  refine ⟨?_, ?_, ?_⟩ <;> rw [entryField, hout] <;> rfl

/-- Witness for claim C6: even with an android-device server status present,
a server version accepted by the configured range, and a nonempty flag list,
omitting the android flag leaves the entry unsupported. -/
theorem android_requires_flag_witness :
    (["other-flag"] : List String).contains "android" = false ∧
    entryField
      (getInterceptOptions rangeSatTrue [androidStatus] (some "1.2.3")
        ["other-flag"]) "android-device" "isSupported" =
      some (Value.vBool false) ∧
    entryField
      (getInterceptOptions rangeSatTrue [androidStatus] (some "1.2.3")
        ["other-flag"]) "android-device" "isActive" =
      some (Value.vBool false) ∧
    entryField
      (getInterceptOptions rangeSatTrue [androidStatus] (some "1.2.3")
        ["other-flag"]) "android-device" "isActivable" =
      some (Value.vBool false) := by
  have h := android_requires_flag rangeSatTrue [androidStatus] (some "1.2.3")
    ["other-flag"] rfl
  exact ⟨rfl, h.1, h.2.1, h.2.2⟩

/-- Counterexample to claim C7 as frozen: it asserts that a descriptor with
a requirement check but no matching server status always ends up
unsupported. The android-device descriptor has a requirement check and is
client-only; with no server status at all, a server version satisfying the
configured range and the android feature flag enabled, its entry is
supported, not unsupported. -/
theorem total_graceful_counterexample :
    (dictGet (androidDeviceOption rangeSatTrue) "checkRequirements").isSome =
      true ∧
    dictGet (keyBy []) "android-device" = none ∧
    entryField (getInterceptOptions rangeSatTrue [] (some "1.2.3") ["android"])
      "android-device" "isSupported" = some (Value.vBool true) :=
  ⟨rfl, rfl, rfl⟩

/-- Claim C7 (amended): getInterceptOptions is total — every input yields an
entry for exactly the table ids, never an error value — and absent data
degrades to "unsupported" rather than faulting: a non-client-only descriptor
with no matching server status resolves to the unsupported entry, and the
electron requirement check evaluates an absent interceptor version to
requirement-not-met (false), never to an error; an absent serverVersion
likewise just flows into the checks. (The frozen claim also asserted that a
client-only descriptor with a requirement check but no matching status ends
up unsupported; android-device refutes that when its check passes.) -/
theorem getInterceptOptions_total_graceful (rangeSat : DetailedConfigSat)
    (sis : List ServerInterceptor) (sv : Option String) (ff : List String) :
    (∀ i, (dictGet (getInterceptOptions rangeSat sis sv ff) i).isSome =
       (dictGet (INTERCEPT_OPTIONS rangeSat) i).isSome) ∧
    (∀ i d, dictGet (INTERCEPT_OPTIONS rangeSat) i = some d →
       truthyOpt (dictGet d "clientOnly") = false →
       dictGet (keyBy sis) i = none →
       dictGet (getInterceptOptions rangeSat sis sv ff) i =
         some (assign (assign [] d)
           [("id", Value.vStr i), ("isSupported", Value.vBool false),
            ("isActive", Value.vBool false),
            ("isActivable", Value.vBool false)])) ∧
    requirementsMet electronOption none ff sv = false ∧
    semverSatisfiesCaret101 none = false := by
  refine ⟨?_, ?_, rfl, rfl⟩
  · intro i
    rw [getInterceptOptions_get]
    cases dictGet (INTERCEPT_OPTIONS rangeSat) i <;> rfl
  · intro i d hd hco hm
    rw [getInterceptOptions_get, hd, Option.map_some', hm,
      resolveOption_unsupported_noMatch _ _ _ _ hco]

/-- Witness for claim C7 (amended): the electron descriptor — which does
have a requirement check consuming the interceptor version — against an
empty server list resolves to the unsupported entry. -/
theorem getInterceptOptions_total_graceful_witness :
    dictGet (INTERCEPT_OPTIONS rangeSatFalse) "electron" =
      some electronOption ∧
    truthyOpt (dictGet electronOption "clientOnly") = false ∧
    dictGet (keyBy []) "electron" = none ∧
    dictGet (getInterceptOptions rangeSatFalse [] none []) "electron" =
      some (assign (assign [] electronOption)
        [("id", Value.vStr "electron"), ("isSupported", Value.vBool false),
         ("isActive", Value.vBool false), ("isActivable", Value.vBool false)]) :=
  ⟨rfl, rfl, rfl,
    (getInterceptOptions_total_graceful rangeSatFalse [] none []).2.1
      "electron" electronOption rfl rfl rfl⟩

/-- Claim C8: the index built from the server interceptor sequence keeps the
last occurrence of a duplicated id — lookup in the index is exactly "last
status whose id matches" — the output entry for a table id is a function of
that last status only, and dropping all but the last of a run of same-id
statuses leaves the whole output unchanged. -/
theorem keyBy_last_wins (rangeSat : DetailedConfigSat)
    (sis : List ServerInterceptor) (sv : Option String) (ff : List String) :
    (∀ i, dictGet (keyBy sis) i =
       sis.reverse.find? (fun o => keyOf o == i)) ∧
    (∀ i, dictGet (getInterceptOptions rangeSat sis sv ff) i =
       (dictGet (INTERCEPT_OPTIONS rangeSat) i).map
         (fun option =>
           resolveOption (sis.reverse.find? (fun o => keyOf o == i))
             sv ff option i)) ∧
    (∀ (xs : List ServerInterceptor) (o₁ o₂ : ServerInterceptor),
       keyOf o₁ = keyOf o₂ →
       getInterceptOptions rangeSat (xs ++ [o₁, o₂]) sv ff =
         getInterceptOptions rangeSat (xs ++ [o₂]) sv ff) := by
  refine ⟨fun i => dictGet_keyBy sis i, fun i => ?_, ?_⟩
  · rw [getInterceptOptions_get, dictGet_keyBy]
  · intro xs o₁ o₂ hk
    have hkb : keyBy (xs ++ [o₁, o₂]) = keyBy (xs ++ [o₂]) := by
      simp only [keyBy, assign, List.map_append, List.map_cons, List.map_nil]
      rw [List.foldl_append, List.foldl_append]
      simp only [List.foldl_cons, List.foldl_nil, hk, dictSet_dictSet]
    simp only [getInterceptOptions, hkb]

/-- Claim C9: no resolved entry is ever active or activable while
unsupported: whenever an output entry's isSupported field is false, its
isActive and isActivable fields are false too. -/
theorem unsupported_never_active (rangeSat : DetailedConfigSat)
    (sis : List ServerInterceptor) (sv : Option String) (ff : List String)
    (i : String) (e : Obj)
    (he : dictGet (getInterceptOptions rangeSat sis sv ff) i = some e)
    (hu : dictGet e "isSupported" = some (Value.vBool false)) :
    dictGet e "isActive" = some (Value.vBool false) ∧
    dictGet e "isActivable" = some (Value.vBool false) := by
  rw [getInterceptOptions_get] at he
  cases hd : dictGet (INTERCEPT_OPTIONS rangeSat) i with
  | none => rw [hd] at he; simp at he
  | some d =>
    rw [hd, Option.map_some'] at he
    obtain rfl := Option.some_inj.mp he
    by_cases hb1 :
        ((!truthyOpt (dictGet d "clientOnly") &&
            (dictGet (keyBy sis) i).isNone) ||
          !requirementsMet d (versionOf (dictGet (keyBy sis) i)) ff sv) = true
    · rw [resolveOption, if_pos hb1]
      constructor <;> simp [assign, dictGet_dictSet]
    · rw [resolveOption, if_neg hb1] at hu
      by_cases hb2 : truthyOpt (dictGet d "clientOnly") = true
      · rw [if_pos hb2] at hu
        simp [assign, dictGet_dictSet] at hu
      · rw [if_neg hb2] at hu
        simp [assign, dictGet_dictSet] at hu

/-- Witness for claim C9: the docker-all entry resolved from an empty server
list is unsupported, and indeed neither active nor activable. -/
theorem unsupported_never_active_witness :
    dictGet (getInterceptOptions rangeSatFalse [] none []) "docker-all" =
      some (assign (assign [] dockerAllOption)
        [("id", Value.vStr "docker-all"), ("isSupported", Value.vBool false),
         ("isActive", Value.vBool false),
         ("isActivable", Value.vBool false)]) ∧
    dictGet (assign (assign [] dockerAllOption)
        [("id", Value.vStr "docker-all"), ("isSupported", Value.vBool false),
         ("isActive", Value.vBool false),
         ("isActivable", Value.vBool false)]) "isSupported" =
      some (Value.vBool false) ∧
    dictGet (assign (assign [] dockerAllOption)
        [("id", Value.vStr "docker-all"), ("isSupported", Value.vBool false),
         ("isActive", Value.vBool false),
         ("isActivable", Value.vBool false)]) "isActive" =
      some (Value.vBool false) ∧
    dictGet (assign (assign [] dockerAllOption)
        [("id", Value.vStr "docker-all"), ("isSupported", Value.vBool false),
         ("isActive", Value.vBool false),
         ("isActivable", Value.vBool false)]) "isActivable" =
      some (Value.vBool false) := by
  have h := unsupported_never_active rangeSatFalse [] none [] "docker-all"
    (assign (assign [] dockerAllOption)
      [("id", Value.vStr "docker-all"), ("isSupported", Value.vBool false),
       ("isActive", Value.vBool false), ("isActivable", Value.vBool false)])
    rfl rfl
  exact ⟨rfl, rfl, h.1, h.2⟩

/-- Claim C10: the two client-only entries (android-device and manual-setup)
are identical whether or not a matching server status is present — in fact
they do not depend on the server interceptor input at all, so no
server-reported field can ever appear in them — and their isActive field is
always false, even if the server reports an active status under their id. -/
theorem clientOnly_server_independent (rangeSat : DetailedConfigSat)
    (sis : List ServerInterceptor) (sv : Option String) (ff : List String) :
    dictGet (getInterceptOptions rangeSat sis sv ff) "android-device" =
      dictGet (getInterceptOptions rangeSat [] sv ff) "android-device" ∧
    dictGet (getInterceptOptions rangeSat sis sv ff) "manual-setup" =
      dictGet (getInterceptOptions rangeSat [] sv ff) "manual-setup" ∧
    entryField (getInterceptOptions rangeSat sis sv ff) "android-device"
      "isActive" = some (Value.vBool false) ∧
    entryField (getInterceptOptions rangeSat sis sv ff) "manual-setup"
      "isActive" = some (Value.vBool false) := by
  have hga : dictGet (getInterceptOptions rangeSat sis sv ff)
      "android-device" =
      some (resolveOption (dictGet (keyBy sis) "android-device") sv ff
        (androidDeviceOption rangeSat) "android-device") := by
    rw [getInterceptOptions_get]; rfl
  refine ⟨rfl, rfl, ?_, rfl⟩
  rw [entryField, hga]
  show dictGet (resolveOption (dictGet (keyBy sis) "android-device") sv ff
    (androidDeviceOption rangeSat) "android-device") "isActive" =
    some (Value.vBool false)
  cases hreq : rangeSat (sv.getD "") && ff.contains "android" with
  | false =>
    have hreq' : requirementsMet (androidDeviceOption rangeSat)
        (versionOf (dictGet (keyBy sis) "android-device")) ff sv = false := hreq
    rw [resolveOption_unsupported_reqFail _ _ _ _ _ hreq']
    rfl
  | true =>
    have hco : truthyOpt
        (dictGet (androidDeviceOption rangeSat) "clientOnly") = true := rfl
    have hreq' : requirementsMet (androidDeviceOption rangeSat)
        (versionOf (dictGet (keyBy sis) "android-device")) ff sv = true := hreq
    rw [resolveOption_clientOnly _ _ _ _ _ hco hreq']
    rfl

/-- Witness for claim C8: two docker-all statuses that disagree on every
non-id field; the index keeps the second, and the output equals the output
for the second status alone. -/
theorem keyBy_last_wins_witness :
    keyOf dockerStatus = keyOf dockerStatus2 ∧
    getInterceptOptions rangeSatFalse [dockerStatus, dockerStatus2] none [] =
      getInterceptOptions rangeSatFalse [dockerStatus2] none [] ∧
    dictGet (keyBy [dockerStatus, dockerStatus2]) "docker-all" =
      some dockerStatus2 ∧
    entryField (getInterceptOptions rangeSatFalse [dockerStatus, dockerStatus2]
      none []) "docker-all" "version" = some (Value.vStr "y") :=
  ⟨rfl,
    (keyBy_last_wins rangeSatFalse [] none []).2.2 [] dockerStatus
      dockerStatus2 rfl,
    rfl, rfl⟩
